import Mathlib

/-!
Verification of the payment-transaction reconciliation core of the
asaplogistics backend: the encrypted transaction envelope, the integrity
signer, the processing lock, the webhook settlement pipeline, and the
atomic balance-ledger mutation.

Conventions of the embedding:
* Byte strings (Buffers) are lists of natural numbers; base64 and hex are
  bijective transport encodings and are elided.
* JavaScript string values are Lean strings; serialization to bytes maps
  each character to its code point.
* Money amounts are integers (the scenarios in question are integral and
  the code performs only addition, subtraction and comparison).
* Fallible code (throwing JavaScript functions) returns Except.
* The AES-256-GCM primitive and the SHA-2 HMAC primitives live in the
  runtime crypto library, outside this repository; they are modelled as
  executable functions with the structure of a counter-mode authenticated
  cipher (keystream XOR plus a recomputed tag over nonce and ciphertext)
  and of fixed-output-length keyed digests.
* Firestore server timestamps (lastUpdated, paidAt, createdAt, ledger
  timestamps) are metadata never read by the code under verification and
  are elided from the store model.
-/

/-- Character-code serialization of a JavaScript string. -/
def encodeStr (s : String) : List Nat := s.data.map Char.toNat

/-- Inverse of encodeStr on its image. -/
def decodeStr (l : List Nat) : String := String.mk (l.map Char.ofNat)

/-- Length-prefixed encoding of a byte field inside a serialized record. -/
def encLP (l : List Nat) : List Nat := l.length :: l

/-- Reads one length-prefixed field, returning the field and the rest. -/
def readLP : List Nat → Option (List Nat × List Nat)
  | [] => none
  | n :: rest => if n ≤ rest.length then some (rest.take n, rest.drop n) else none

/-- Encoding of an integer field. -/
def encInt : Int → List Nat
  | Int.ofNat n => [0, n]
  | Int.negSucc n => [1, n]

/-- Reads one integer field. -/
def readInt : List Nat → Option (Int × List Nat)
  | 0 :: n :: r => some (Int.ofNat n, r)
  | 1 :: n :: r => some (Int.negSucc n, r)
  | _ => none

/-- Encoding of an optional string field (absent JS object properties). -/
def encOptStr : Option String → List Nat
  | none => [0]
  | some s => 1 :: encLP (encodeStr s)

/-- Reads one optional string field. -/
def readOptStr : List Nat → Option (Option String × List Nat)
  | 0 :: r => some (none, r)
  | 1 :: r => (readLP r).map (fun p => (some (decodeStr p.1), p.2))
  | _ => none

/-- The pending-transaction record sealed into the envelope. Field names
follow the transactionData objects built by the initiation handlers; the
provider-specific properties (paymentIntentId for the Stripe variant,
opayReference and opayOrderNo for the OPay variant) are optional, as the
records are schemaless JS objects. -/
structure TxRecord where
  transactionId : String
  uid : String
  type : String
  deliveryId : Option String
  amount : Int
  timestamp : Int
  status : String
  paymentIntentId : Option String
  opayReference : Option String
  opayOrderNo : Option String
deriving DecidableEq

/-- Canonical serialization of a TxRecord, standing for JSON.stringify of
the transaction object. -/
def serializeTx (t : TxRecord) : List Nat :=
  encLP (encodeStr t.transactionId) ++
    (encLP (encodeStr t.uid) ++
      (encLP (encodeStr t.type) ++
        (encOptStr t.deliveryId ++
          (encInt t.amount ++
            (encInt t.timestamp ++
              (encLP (encodeStr t.status) ++
                (encOptStr t.paymentIntentId ++
                  (encOptStr t.opayReference ++ encOptStr t.opayOrderNo))))))))

/-- Inverse of serializeTx, standing for JSON.parse. -/
def parseTx (l : List Nat) : Option TxRecord :=
  match readLP l with
  | none => none
  | some (a, l1) =>
  match readLP l1 with
  | none => none
  | some (b, l2) =>
  match readLP l2 with
  | none => none
  | some (c, l3) =>
  match readOptStr l3 with
  | none => none
  | some (d, l4) =>
  match readInt l4 with
  | none => none
  | some (e, l5) =>
  match readInt l5 with
  | none => none
  | some (f, l6) =>
  match readLP l6 with
  | none => none
  | some (g, l7) =>
  match readOptStr l7 with
  | none => none
  | some (h, l8) =>
  match readOptStr l8 with
  | none => none
  | some (i, l9) =>
  match readOptStr l9 with
  | none => none
  | some (j, l10) =>
  if l10 = [] then
    some { transactionId := decodeStr a, uid := decodeStr b, type := decodeStr c,
           deliveryId := d, amount := e, timestamp := f, status := decodeStr g,
           paymentIntentId := h, opayReference := i, opayOrderNo := j }
  else none

/-- Modelled from the spec: the keystream of the authenticated symmetric
cipher (AES-256-GCM counter mode) supplied by the runtime crypto library,
which is not part of this repository. Only its functional shape (a
deterministic stream indexed by key, nonce and position) matters here. -/
def keyStream (key nonce : List Nat) (i : Nat) : Nat :=
  List.foldr (· + ·) 0 key + List.foldr (· + ·) 0 nonce + i

/-- Counter-mode byte transform: XOR each byte with the keystream.
Applying it twice with the same key and nonce is the identity, as for the
CTR core of AES-GCM. -/
def ctrCrypt (key nonce : List Nat) : Nat → List Nat → List Nat
  | _, [] => []
  | i, b :: bs => (b ^^^ keyStream key nonce i) :: ctrCrypt key nonce (i + 1) bs

/-- Modelled from the spec: the GCM authentication tag of the runtime
crypto library, a deterministic keyed function of nonce and ciphertext
recomputed and compared at decryption time. The model keeps the property
that distinct (nonce, ciphertext) pairs have distinct tags. -/
def gcmTag (key nonce ct : List Nat) : List Nat :=
  (nonce ++ ct).map (fun b => b + List.foldr (· + ·) 0 key + 1)

/-- An encrypted envelope as persisted at rest: iv, auth tag, ciphertext
(the source stores each base64-encoded; base64 is elided). -/
structure Envelope where
  iv : List Nat
  tag : List Nat
  data : List Nat
deriving DecidableEq

/-- The sealing core of encryptData once the key check has passed: a fresh
nonce, the CTR ciphertext of the serialized record, and the tag. -/
def sealBytes (key nonce : List Nat) (plain : TxRecord) : Envelope :=
  let ct := ctrCrypt key nonce 0 (serializeTx plain)
  { iv := nonce, tag := gcmTag key nonce ct, data := ct }

/-- encryptData from src/src/utils/paymentCrypto.js: ensureEncKey demands a
32-byte key, then AES-256-GCM seals the JSON serialization under a fresh
12-byte random nonce (passed here as a parameter). -/
def encryptData (key nonce : List Nat) (plain : TxRecord) : Except String Envelope :=
  if key.length = 32 then Except.ok (sealBytes key nonce plain)
  else Except.error "PAYMENT_ENC_KEY must be a base64-encoded 32-byte key"

/-- decryptData from src/src/utils/paymentCrypto.js: ensureEncKey, then
GCM decryption, which recomputes the tag over the received nonce and
ciphertext and fails if it does not match, then JSON.parse. -/
def decryptData (key : List Nat) (e : Envelope) : Except String TxRecord :=
  if key.length = 32 then
    if gcmTag key e.iv e.data = e.tag then
      match parseTx (ctrCrypt key e.iv 0 e.data) with
      | some r => Except.ok r
      | none => Except.error "Unexpected token in JSON"
    else Except.error "Unsupported state or unable to authenticate data"
  else Except.error "PAYMENT_ENC_KEY must be a base64-encoded 32-byte key"

/-- Modelled from the spec: the SHA-256 HMAC of the runtime crypto
library, a deterministic keyed digest with a 32-byte output. -/
def hmacSha256 (key msg : List Nat) : List Nat :=
  (List.range 32).map
    (fun i => i + 1 + List.foldr (· + ·) 0 key + List.foldr (· + ·) 0 msg)

/-- Modelled from the spec: the SHA-512 HMAC of the runtime crypto
library, a deterministic keyed digest with a 64-byte output. -/
def hmacSha512 (key msg : List Nat) : List Nat :=
  (List.range 64).map
    (fun i => i + 2 + List.foldr (· + ·) 0 key + List.foldr (· + ·) 0 msg)

/-- generateHmac from src/src/utils/paymentCrypto.js: ensureHmacKey
demands a 64-byte key, then HMAC-SHA256 over the JSON serialization. -/
def generateHmac (key : List Nat) (data : TxRecord) : Except String (List Nat) :=
  if key.length = 64 then Except.ok (hmacSha256 key (serializeTx data))
  else Except.error "PAYMENT_HMAC_KEY must be a base64-encoded 64-byte key"

/-- crypto.timingSafeEqual: throws when the two buffers differ in length,
otherwise returns their constant-time equality. -/
def timingSafeEqual (a b : List Nat) : Except String Bool :=
  if a.length = b.length then Except.ok (a == b)
  else Except.error "Input buffers must have the same byte length"

/-- verifyHmac from src/src/utils/paymentCrypto.js: recompute the digest
and compare via timingSafeEqual against the hex-decoded candidate. -/
def verifyHmac (key : List Nat) (data : TxRecord) (hmac : List Nat) : Except String Bool :=
  match generateHmac key data with
  | Except.error e => Except.error e
  | Except.ok expected => timingSafeEqual expected hmac

/-- The subset of a user document read and written by settlement:
wallet.balance (absent wallet reads as balance 0 via the JS fallback) and
accountLevel. -/
structure UserDoc where
  wallet : Option Int
  accountLevel : Option String
deriving DecidableEq

/-- A delivery document (the payable obligation). -/
structure Delivery where
  userId : String
  status : String
  paid : Bool
deriving DecidableEq

/-- An immutable ledger entry in the transactions collection. -/
structure LedgerEntry where
  uid : String
  type : String
  amount : Int
  description : String
deriving DecidableEq

/-- A pendingTransactions document: the encrypted envelope plus the
provider reference (OPay variant) or the integrity digest (Stripe
variant); the documents are schemaless, hence the optional fields. -/
structure PendingDoc where
  data : Envelope
  opayReference : Option String
  hmac : Option (List Nat)
deriving DecidableEq

/-- A notifyUser invocation (uid and event name). Delivery additionally
requires an open socket for that uid; the embedding records the
invocations, which is what the temporal claims quantify over. -/
structure Notif where
  uid : String
  event : String
deriving DecidableEq

/-- The persistent store visible to the payment core: the users and
deliveries documents, the append-only transactions collection, the
pendingTransactions collection, and the realtime-database processing-lock
keys. -/
structure Store where
  users : List (String × UserDoc)
  deliveries : List (String × Delivery)
  transactions : List LedgerEntry
  pendingTransactions : List (String × PendingDoc)
  locks : List String
deriving DecidableEq

/-- Document lookup by id in a collection. -/
def assocFind {α : Type} (k : String) : List (String × α) → Option α
  | [] => none
  | (k2, v) :: rest => if k2 = k then some v else assocFind k rest

/-- Document replacement by id in a collection (t.update on an existing
document). -/
def assocSet {α : Type} (k : String) (v : α) : List (String × α) → List (String × α)
  | [] => []
  | (k2, w) :: rest => if k2 = k then (k2, v) :: rest else (k2, w) :: assocSet k v rest

/-- userData.wallet?.balance with the JS fallback to 0 for a missing user
document or a missing wallet object. -/
def balanceOf (s : Store) (uid : String) : Int :=
  (((assocFind uid s.users).getD { wallet := none, accountLevel := none }).wallet).getD 0

/-- The paid flag of a delivery document (false if the document is
missing). -/
def deliveryPaid (s : Store) (d : String) : Bool :=
  ((assocFind d s.deliveries).getD { userId := "", status := "", paid := false }).paid

/-- processSuccessfulPayment from src/unnamed/part_003 (the Stripe-variant
controller; src/unnamed/part_002 has the same transaction body): the
closure passed to firestore.runTransaction. It reads the user document,
then for wallet_funding credits the balance and appends a credit ledger
entry, and for delivery_payment rechecks the funds, debits the balance,
marks the delivery paid and appends a debit ledger entry; notifyUser is
invoked inside the closure. A thrown error (insufficient funds, or a
t.update against a missing document) aborts the transaction with no
writes. Returns the post-commit store and the notifyUser invocations made
during one execution of the closure. -/
def processSuccessfulPayment (td : TxRecord) (s : Store) : Except String (Store × List Notif) :=
  let userOpt := assocFind td.uid s.users
  let userData := userOpt.getD { wallet := none, accountLevel := none }
  let currentBalance := balanceOf s td.uid
  if td.type = "wallet_funding" then
    let newBalance := currentBalance + td.amount
    let shouldUpgrade := decide (50000 ≤ newBalance) && !(userData.accountLevel == some "premium")
    match userOpt with
    | none => Except.error "NOT_FOUND: no document to update"
    | some _ =>
      let user2 : UserDoc :=
        { wallet := some newBalance,
          accountLevel := if shouldUpgrade then some "premium" else userData.accountLevel }
      let entry : LedgerEntry :=
        { uid := td.uid, type := "credit", amount := td.amount, description := "Wallet funding" }
      Except.ok
        ({ s with users := assocSet td.uid user2 s.users,
                  transactions := s.transactions ++ [entry] },
         [{ uid := td.uid, event := "wallet_funded" }])
  else if td.type = "delivery_payment" then
    if currentBalance < td.amount then Except.error "Insufficient funds"
    else
      let newBalance := currentBalance - td.amount
      match userOpt with
      | none => Except.error "NOT_FOUND: no document to update"
      | some _ =>
        match td.deliveryId with
        | none => Except.error "NOT_FOUND: no document to update"
        | some dId =>
          match assocFind dId s.deliveries with
          | none => Except.error "NOT_FOUND: no document to update"
          | some dv =>
            let user2 : UserDoc := { userData with wallet := some newBalance }
            let dv2 : Delivery := { dv with paid := true }
            let entry : LedgerEntry :=
              { uid := td.uid, type := "debit", amount := td.amount,
                description := "Delivery payment" }
            Except.ok
              ({ s with users := assocSet td.uid user2 s.users,
                        deliveries := assocSet dId dv2 s.deliveries,
                        transactions := s.transactions ++ [entry] },
               [{ uid := td.uid, event := "delivery_paid" }])
  else
    Except.ok (s, [])

/-- firestore.runTransaction around processSuccessfulPayment, with its
documented retry contract: on write contention the closure is executed
again; buffered writes of an aborted attempt are discarded but any side
effect performed inside the closure (here the notifyUser calls) has
already happened. The conflicts argument counts the aborted attempts
before the committing one. A closure that throws aborts the transaction
with no writes and the error propagates. -/
def runSettlement (conflicts : Nat) (td : TxRecord) (s : Store) :
    Store × List Notif × Option String :=
  match processSuccessfulPayment td s with
  | Except.error e => (s, [], some e)
  | Except.ok (s2, ns) =>
    (s2, (List.replicate conflicts ns).foldr (· ++ ·) [] ++ ns, none)

/-- processSuccessfulPayment from src/src/controller/payment.controller.js
(the OPay-variant controller): its transaction closure unconditionally
credits the amount and appends a credit ledger entry, with notifyUser
invoked inside the closure. -/
def processSuccessfulPaymentOpay (td : TxRecord) (s : Store) : Except String (Store × List Notif) :=
  match assocFind td.uid s.users with
  | none => Except.error "NOT_FOUND: no document to update"
  | some u =>
    let newBalance := u.wallet.getD 0 + td.amount
    let entry : LedgerEntry :=
      { uid := td.uid, type := "credit", amount := td.amount, description := "Wallet funding" }
    Except.ok
      ({ s with users := assocSet td.uid { u with wallet := some newBalance } s.users,
                transactions := s.transactions ++ [entry] },
       [{ uid := td.uid, event := "wallet_balance_update" }])

/-- acquireProcessingLock run to completion with no interleaving: read the
lock key in the realtime database; if present return false, otherwise
write it and return true. -/
def acquireProcessingLock (txId : String) (s : Store) : Bool × Store :=
  if s.locks.contains txId then (false, s)
  else (true, { s with locks := txId :: s.locks })

/-- releaseProcessingLock: remove the lock key (idempotent). -/
def releaseProcessingLock (txId : String) (s : Store) : Store :=
  { s with locks := s.locks.filter (fun l => !(l == txId)) }

/-- The interleaved small-step view of acquireProcessingLock for the
concurrency claim. One in-flight call is a program counter plus its
eventual return value: pc 0 is before the awaited existence read, pc 1 is
between the read (which saw no lock) and the awaited write, pc 2 is
done. Each step crosses exactly one asynchronous store boundary of the
source function. -/
structure AcqProc where
  pc : Nat
  ret : Option Bool
deriving DecidableEq

/-- One asynchronous step of acquireProcessingLock against the shared lock
cell (the value stored is the lockedAt timestamp). -/
def acquireProcessingLockStep (lock : Option Nat) (p : AcqProc) : Option Nat × AcqProc :=
  match p.pc with
  | 0 =>
    match lock with
    | some _ => (lock, { pc := 2, ret := some false })
    | none => (lock, { pc := 1, ret := p.ret })
  | 1 => (some 1, { pc := 2, ret := some true })
  | _ => (lock, p)

/-- Runs two concurrent acquireProcessingLock calls for the same
transactionId under a schedule: true schedules a step of the first call,
false a step of the second. Returns the lock cell and both call states. -/
def runTwoAcquires : List Bool → Option Nat → AcqProc → AcqProc → Option Nat × AcqProc × AcqProc
  | [], lock, a, b => (lock, a, b)
  | true :: rest, lock, a, b =>
    let r := acquireProcessingLockStep lock a
    runTwoAcquires rest r.1 r.2 b
  | false :: rest, lock, a, b =>
    let r := acquireProcessingLockStep lock b
    runTwoAcquires rest r.1 a r.2

/-- The OPay webhook body after JSON parsing: the event status and the
provider reference inside data. -/
structure OPayload where
  status : String
  reference : String
deriving DecidableEq

/-- The payload string over which the webhook signature is computed
(JSON.stringify of the payload object; any injective serialization). -/
def stringifyOPayload (p : OPayload) : List Nat :=
  encLP (encodeStr p.status) ++ encLP (encodeStr p.reference)

/-- verifyOpayWebhookSignature from
src/src/controller/payment.controller.js: outside production every
signature is accepted; in production the hex HMAC-SHA512 of the payload
under the webhook secret is compared with the received signature. -/
def verifyOpayWebhookSignature (env : String) (secret : List Nat)
    (p : OPayload) (sig : List Nat) : Bool :=
  if env ≠ "production" then true
  else decide (hmacSha512 secret (stringifyOPayload p) = sig)

/-- Lookup of the pending transaction whose opayReference field equals the
provider reference (the firestore where-equals query with limit 1). -/
def findPendingByOpayRef (ref : String) :
    List (String × PendingDoc) → Option (String × PendingDoc)
  | [] => none
  | (id, d) :: rest =>
    if d.opayReference = some ref then some (id, d) else findPendingByOpayRef ref rest

/-- opayWebhook from src/src/controller/payment.controller.js: verify the
signature (400 on mismatch), acknowledge non-success events, look up the
pending transaction by provider reference (404 when absent), decrypt the
envelope, take the processing lock (acknowledge duplicates), settle,
delete the pending record, release the lock in a finally block, respond
200; a thrown error is caught and answered 500. Returns the response
(status code and body), the resulting store and the notifyUser
invocations. -/
def opayWebhook (env : String) (secret key : List Nat) (p : OPayload)
    (sig : List Nat) (s : Store) : (Nat × String) × Store × List Notif :=
  if !(verifyOpayWebhookSignature env secret p sig) then ((400, "Invalid signature"), s, [])
  else if p.status ≠ "SUCCESS" then ((200, "received"), s, [])
  else
    match findPendingByOpayRef p.reference s.pendingTransactions with
    | none => ((404, "Transaction not found"), s, [])
    | some (docId, doc) =>
      match decryptData key doc.data with
      | Except.error _ => ((500, "Webhook error"), s, [])
      | Except.ok td =>
        let acq := acquireProcessingLock docId s
        if !acq.1 then ((200, "received"), s, [])
        else
          match processSuccessfulPaymentOpay td acq.2 with
          | Except.error _ => ((500, "Webhook error"), releaseProcessingLock docId acq.2, [])
          | Except.ok (s2, ns) =>
            let s3 : Store :=
              { s2 with pendingTransactions :=
                  s2.pendingTransactions.filter (fun q => !(q.1 == docId)) }
            ((200, "received"), releaseProcessingLock docId s3, ns)

/-- handlePaymentIntentSucceeded from src/unnamed/part_003 (same flow in
src/unnamed/part_002): read the transactionId from the payment-intent
metadata (log and return when absent), fetch the pending document by id
(log and return when absent), decrypt the envelope (a throw propagates to
the webhook catch), take the processing lock (return on duplicates),
settle via processSuccessfulPayment, delete the pending record, release
the lock in a finally block. The stored hmac field of the pending
document is never read. Returns the store, the notifyUser invocations and
the propagated error, if any. -/
def handlePaymentIntentSucceeded (key : List Nat) (txId : Option String)
    (s : Store) : Store × List Notif × Option String :=
  match txId with
  | none => (s, [], none)
  | some tid =>
    match assocFind tid s.pendingTransactions with
    | none => (s, [], none)
    | some doc =>
      match decryptData key doc.data with
      | Except.error e => (s, [], some e)
      | Except.ok td =>
        let acq := acquireProcessingLock tid s
        if !acq.1 then (s, [], none)
        else
          match processSuccessfulPayment td acq.2 with
          | Except.error e => (releaseProcessingLock tid acq.2, [], some e)
          | Except.ok (s2, ns) =>
            let s3 : Store :=
              { s2 with pendingTransactions :=
                  s2.pendingTransactions.filter (fun q => !(q.1 == tid)) }
            (releaseProcessingLock tid s3, ns, none)

/-- The result of the JavaScript Number() conversion of a request-body
amount: NaN or a numeric value. -/
inductive JsNum
  | nan
  | val (x : Int)
deriving DecidableEq

/-- The amount validation of the OPay-variant initiation handlers
(isNaN or non-positive), src/src/controller/payment.controller.js. -/
def invalidBasicAmount : JsNum → Bool
  | JsNum.nan => true
  | JsNum.val x => decide (x ≤ 0)

/-- The amount validation of the Stripe-variant wallet funding
(isNaN, non-positive, or above 1000000), src/unnamed/part_002. -/
def invalidStripeAmount : JsNum → Bool
  | JsNum.nan => true
  | JsNum.val x => decide (x ≤ 0) || decide (1000000 < x)

/-- initiateWalletFunding from src/src/controller/payment.controller.js:
authentication check, Number conversion and amount validation (400 on
isNaN or non-positive), user lookup (404 when absent), OPay charge
creation (400 when the provider declines, parameterized by providerOk and
the returned references), then persistence of the encrypted pending
record and a 200 response. The generated transactionId and the fresh
nonce for encryptData are parameters. -/
def initiateWalletFunding (uid : Option String) (amount : JsNum) (txId : String)
    (key nonce : List Nat) (providerOk : Bool) (opayRef opayOrd : String)
    (s : Store) : (Nat × String) × Store :=
  match uid with
  | none => ((401, "Unauthorized"), s)
  | some u =>
    match amount with
    | JsNum.nan => ((400, "Invalid amount"), s)
    | JsNum.val a =>
      if a ≤ 0 then ((400, "Invalid amount"), s)
      else
        match assocFind u s.users with
        | none => ((404, "User not found"), s)
        | some _ =>
          if !providerOk then ((400, "OPay init failed"), s)
          else
            let td : TxRecord :=
              { transactionId := txId, uid := u, type := "wallet_funding",
                deliveryId := none, amount := a, timestamp := 0,
                status := "pending", paymentIntentId := none,
                opayReference := some opayRef, opayOrderNo := some opayOrd }
            match encryptData key nonce td with
            | Except.error _ => ((500, "Failed to initiate funding"), s)
            | Except.ok env =>
              let doc : PendingDoc :=
                { data := env, opayReference := some opayRef, hmac := none }
              ((200, "success"),
               { s with pendingTransactions := s.pendingTransactions ++ [(txId, doc)] })

/-- initiateWalletFunding from src/unnamed/part_002 (the Stripe variant):
authentication check, required open websocket (400 otherwise), amount
validation including the 1000000 upper bound, integrity digest via
generateHmac, Stripe payment-intent creation (a failure throws to the
catch and answers 500), then persistence of the encrypted record plus its
digest, a transaction_initiated notification and a 200 response. -/
def initiateWalletFundingStripe (uid : Option String) (wsConnected : Bool)
    (amount : JsNum) (txId : String) (hmacKey key nonce : List Nat)
    (stripeOk : Bool) (piId : String) (s : Store) :
    (Nat × String) × Store × List Notif :=
  match uid with
  | none => ((401, "Unauthorized"), s, [])
  | some u =>
    if !wsConnected then ((400, "WebSocket connection required"), s, [])
    else
      match amount with
      | JsNum.nan => ((400, "Invalid amount"), s, [])
      | JsNum.val a =>
        if a ≤ 0 ∨ 1000000 < a then ((400, "Invalid amount"), s, [])
        else
          let td0 : TxRecord :=
            { transactionId := txId, uid := u, type := "wallet_funding",
              deliveryId := none, amount := a, timestamp := 0,
              status := "pending", paymentIntentId := none,
              opayReference := none, opayOrderNo := none }
          match generateHmac hmacKey td0 with
          | Except.error _ => ((500, "Failed to initiate funding"), s, [])
          | Except.ok digest =>
            if !stripeOk then ((500, "Failed to initiate funding"), s, [])
            else
              let td : TxRecord := { td0 with paymentIntentId := some piId }
              match encryptData key nonce td with
              | Except.error _ => ((500, "Failed to initiate funding"), s, [])
              | Except.ok env =>
                let doc : PendingDoc :=
                  { data := env, opayReference := none, hmac := some digest }
                ((200, "success"),
                 { s with pendingTransactions := s.pendingTransactions ++ [(txId, doc)] },
                 [{ uid := u, event := "transaction_initiated" }])

/-- The empty store. -/
def emptyStore : Store :=
  { users := [], deliveries := [], transactions := [], pendingTransactions := [], locks := [] }

/-- A sample 32-byte encryption key. -/
def encKey0 : List Nat := List.replicate 32 0

/-- A sample 64-byte HMAC key. -/
def hmacKey0 : List Nat := List.replicate 64 0

/-- A sample 12-byte nonce. -/
def nonce0 : List Nat := List.replicate 12 0

/-- A sample webhook secret. -/
def secret0 : List Nat := List.replicate 16 1

/-- A user document holding a wallet balance. -/
def user0 (b : Int) : UserDoc := { wallet := some b, accountLevel := none }

/-- A sample wallet-funding transaction record (Stripe variant). -/
def tdFund : TxRecord :=
  { transactionId := "t1", uid := "u1", type := "wallet_funding",
    deliveryId := none, amount := 100, timestamp := 0, status := "pending",
    paymentIntentId := some "pi1", opayReference := none, opayOrderNo := none }

/-- A sample wallet-funding transaction record (OPay variant). -/
def tdFundOpay : TxRecord :=
  { tdFund with paymentIntentId := none, opayReference := some "ref1",
                opayOrderNo := some "ord1" }

/-- A sample delivery-payment transaction record for delivery d1. -/
def tdDeliv : TxRecord :=
  { transactionId := "t2", uid := "u1", type := "delivery_payment",
    deliveryId := some "d1", amount := 25, timestamp := 0, status := "pending",
    paymentIntentId := some "pi2", opayReference := none, opayOrderNo := none }

/-- A confirmed, unpaid delivery owned by u1. -/
def deliv0 : Delivery := { userId := "u1", status := "confirmed", paid := false }

/-- Store for the insufficient-funds scenario: balance 10, price 25. -/
def sInsuf : Store :=
  { emptyStore with users := [("u1", user0 10)], deliveries := [("d1", deliv0)] }

/-- Store for the double-settlement scenario: balance 50, price 25. -/
def sDouble : Store :=
  { emptyStore with users := [("u1", user0 50)], deliveries := [("d1", deliv0)] }

/-- Store with one user of balance 0. -/
def sFund : Store := { emptyStore with users := [("u1", user0 0)] }

/-- Store holding a pending Stripe-variant funding transaction whose
stored integrity digest is garbage (not the digest of the record). -/
def sTamperHmac : Store :=
  { sFund with pendingTransactions :=
      [("t1", { data := sealBytes encKey0 nonce0 tdFund,
                opayReference := none, hmac := some [1, 2, 3] })] }

/-- Store holding a pending OPay-variant funding transaction reachable
under provider reference ref1. -/
def sOpayPending : Store :=
  { sFund with pendingTransactions :=
      [("t1", { data := sealBytes encKey0 nonce0 tdFundOpay,
                opayReference := some "ref1", hmac := none })] }

/-- A success webhook payload for reference ref1. -/
def pSuccess : OPayload := { status := "SUCCESS", reference := "ref1" }

/-- A success webhook payload for a reference matching no pending
transaction. -/
def pUnknown : OPayload := { status := "SUCCESS", reference := "nope" }

theorem decodeStr_encodeStr (s : String) : decodeStr (encodeStr s) = s := by
  cases s with
  | mk l =>
    simp [decodeStr, encodeStr, List.map_map, Function.comp_def, Char.ofNat_toNat]

theorem readLP_encLP (l r : List Nat) : readLP (encLP l ++ r) = some (l, r) := by
  simp only [encLP, List.cons_append, readLP, List.length_append]
  rw [if_pos (Nat.le_add_right _ _), List.take_left, List.drop_left]

theorem readLP_encLP_self (l : List Nat) : readLP (encLP l) = some (l, []) := by
  have h := readLP_encLP l []
  rwa [List.append_nil] at h

theorem readInt_encInt (i : Int) (r : List Nat) : readInt (encInt i ++ r) = some (i, r) := by
  cases i <;> rfl

theorem readOptStr_encOptStr (o : Option String) (r : List Nat) :
    readOptStr (encOptStr o ++ r) = some (o, r) := by
  cases o with
  | none => rfl
  | some s =>
    simp [encOptStr, readOptStr, List.cons_append, readLP_encLP, decodeStr_encodeStr]

theorem readOptStr_encOptStr_self (o : Option String) :
    readOptStr (encOptStr o) = some (o, []) := by
  have h := readOptStr_encOptStr o []
  rwa [List.append_nil] at h

theorem parseTx_serializeTx (t : TxRecord) : parseTx (serializeTx t) = some t := by
  simp only [parseTx, serializeTx, readLP_encLP, readInt_encInt, readOptStr_encOptStr,
             readOptStr_encOptStr_self, decodeStr_encodeStr]
  rfl

theorem ctrCrypt_ctrCrypt (key nonce : List Nat) (i : Nat) (m : List Nat) :
    ctrCrypt key nonce i (ctrCrypt key nonce i m) = m := by
  induction m generalizing i with
  | nil => rfl
  | cons b bs ih =>
    simp [ctrCrypt, Nat.xor_assoc, Nat.xor_self, Nat.xor_zero, ih]

theorem gcmTag_inj (key : List Nat) {n1 c1 n2 c2 : List Nat}
    (h : gcmTag key n1 c1 = gcmTag key n2 c2) : n1 ++ c1 = n2 ++ c2 := by
  have hf : Function.Injective (fun b : Nat => b + List.foldr (· + ·) 0 key + 1) := by
    intro a b hab
    simpa using hab
  exact List.map_injective_iff.mpr hf h

theorem hmacSha256_length (key msg : List Nat) : (hmacSha256 key msg).length = 32 := by
  simp [hmacSha256]

/-- Claim C1. The claim states that two concurrent acquireProcessingLock
calls for the same transactionId, interleaving at the asynchronous store
boundaries between the existence read and the write, return true for
exactly one of them. The code violates this: acquireProcessingLock is a
separate existence read followed by a write, so under the schedule in
which both reads precede both writes, both calls return true. This
theorem evaluates the interleaved execution at that schedule. -/
theorem C1_lock_race_interleaved_eval :
    (runTwoAcquires [true, false, true, false] none
        { pc := 0, ret := none } { pc := 0, ret := none }).2.1.ret = some true ∧
    (runTwoAcquires [true, false, true, false] none
        { pc := 0, ret := none } { pc := 0, ret := none }).2.2.ret = some true := by
  constructor <;> rfl

/-- Claim C2: for every delivery_payment settlement in which the balance
read inside the transaction is strictly below the amount, the closure
throws Insufficient funds and the transaction commits nothing: the store
(balance, ledger, paid flags) is returned unchanged and no notification
is emitted, for any number of contention retries. -/
theorem C2_insufficient_funds_rolls_back (k : Nat) (td : TxRecord) (s : Store)
    (ht : td.type = "delivery_payment") (hb : balanceOf s td.uid < td.amount) :
    runSettlement k td s = (s, [], some "Insufficient funds") := by
  have hne : ¬ td.type = "wallet_funding" := by rw [ht]; decide
  simp [runSettlement, processSuccessfulPayment, hne, ht, hb]

/-- Witness for C2 at the scenario of the spec: price 25, balance 10. -/
theorem C2_insufficient_funds_rolls_back_witness :
    tdDeliv.type = "delivery_payment" ∧ balanceOf sInsuf tdDeliv.uid < tdDeliv.amount ∧
    runSettlement 0 tdDeliv sInsuf = (sInsuf, [], some "Insufficient funds") :=
  ⟨by decide, by decide,
   C2_insufficient_funds_rolls_back 0 tdDeliv sInsuf (by decide) (by decide)⟩

/-- Claim C3. The claim states that settlement re-checks paid being false
inside the atomic transaction that flips it, so a second settlement
attempt against the same delivery is rejected or a no-op and the balance
is debited at most once. The code has no such re-check: evaluating two
successive settlements of the same delivery from balance 50 and price 25
shows the second attempt also commits, debits the balance again (50 to 25
to 0) and appends a second debit ledger entry. -/
theorem C3_second_settlement_debits_again :
    (runSettlement 0 tdDeliv sDouble).2.2 = none ∧
    deliveryPaid (runSettlement 0 tdDeliv sDouble).1 "d1" = true ∧
    balanceOf (runSettlement 0 tdDeliv sDouble).1 "u1" = 25 ∧
    (runSettlement 0 tdDeliv (runSettlement 0 tdDeliv sDouble).1).2.2 = none ∧
    balanceOf (runSettlement 0 tdDeliv (runSettlement 0 tdDeliv sDouble).1).1 "u1" = 0 ∧
    (runSettlement 0 tdDeliv (runSettlement 0 tdDeliv sDouble).1).1.transactions.length = 2 := by
  decide

/-- Claim C4. The claim states that on the settlement success path the
pending record integrity digest is verified before any balance mutation,
and a digest failure stops the event with no mutation. The code never
reads the stored hmac field on the webhook path (verifyHmac has no call
site at all): evaluating the Stripe settlement handler on a pending
document whose stored digest is the garbage [1, 2, 3] (which verifyHmac
would reject by throwing, first conjunct) shows the settlement commits
anyway, the balance is credited and a ledger entry is written. -/
theorem C4_digest_never_verified_eval :
    verifyHmac hmacKey0 tdFund [1, 2, 3] =
      Except.error "Input buffers must have the same byte length" ∧
    (assocFind "t1" sTamperHmac.pendingTransactions).map PendingDoc.hmac =
      some (some [1, 2, 3]) ∧
    (handlePaymentIntentSucceeded encKey0 (some "t1") sTamperHmac).2.2 = none ∧
    balanceOf (handlePaymentIntentSucceeded encKey0 (some "t1") sTamperHmac).1 "u1" = 100 ∧
    (handlePaymentIntentSucceeded encKey0 (some "t1") sTamperHmac).1.transactions.length = 1 := by
  refine ⟨rfl, by decide, ?_, ?_, ?_⟩ <;> rfl

/-- Claim C9. The claim states that the realtime notification fires only
after the atomic transaction has committed, never for a non-committing
attempt, and at most once per committed settlement even when the
transactional closure is retried. The code calls notifyUser inside the
runTransaction closure, so every execution of the closure emits the
notification: with one contention retry a single committed funding of 100
emits the wallet_funded notification twice, once of them during the
aborted attempt. -/
theorem C9_notification_emitted_inside_transaction :
    (runSettlement 1 tdFund sFund).2.2 = none ∧
    balanceOf (runSettlement 1 tdFund sFund).1 "u1" = 100 ∧
    (runSettlement 1 tdFund sFund).1.transactions.length = 1 ∧
    (runSettlement 1 tdFund sFund).2.1 =
      [{ uid := "u1", event := "wallet_funded" }, { uid := "u1", event := "wallet_funded" }] := by
  refine ⟨rfl, rfl, rfl, rfl⟩

/-- Claim C5: sealing a record and opening the envelope returns the
record, and opening an envelope whose ciphertext, nonce or auth tag was
changed (the other components kept from the sealed value) fails with the
GCM authentication error instead of returning a plaintext. -/
theorem C5_envelope_roundtrip_and_tamper (key nonce : List Nat) (r : TxRecord)
    (hk : key.length = 32) (hn : nonce.length = 12) :
    encryptData key nonce r = Except.ok (sealBytes key nonce r) ∧
    decryptData key (sealBytes key nonce r) = Except.ok r ∧
    (∀ d, d ≠ (sealBytes key nonce r).data →
      decryptData key { sealBytes key nonce r with data := d } =
        Except.error "Unsupported state or unable to authenticate data") ∧
    (∀ tg, tg ≠ (sealBytes key nonce r).tag →
      decryptData key { sealBytes key nonce r with tag := tg } =
        Except.error "Unsupported state or unable to authenticate data") ∧
    (∀ iv2, iv2 ≠ (sealBytes key nonce r).iv →
      decryptData key { sealBytes key nonce r with iv := iv2 } =
        Except.error "Unsupported state or unable to authenticate data") := by
  refine ⟨?_, ?_, ?_, ?_, ?_⟩
  · simp [encryptData, hk]
  · simp [decryptData, hk, sealBytes, ctrCrypt_ctrCrypt, parseTx_serializeTx]
  · intro d hd
    simp only [sealBytes] at hd
    have hne : ¬ gcmTag key nonce d =
        gcmTag key nonce (ctrCrypt key nonce 0 (serializeTx r)) := by
      intro he
      exact hd (List.append_cancel_left (gcmTag_inj key he))
    simp [decryptData, hk, sealBytes, hne]
  · intro tg htg
    simp only [sealBytes] at htg
    have hne : ¬ gcmTag key nonce (ctrCrypt key nonce 0 (serializeTx r)) = tg := by
      intro he
      exact htg he.symm
    simp [decryptData, hk, sealBytes, hne]
  · intro iv2 hiv
    simp only [sealBytes] at hiv
    have hne : ¬ gcmTag key iv2 (ctrCrypt key nonce 0 (serializeTx r)) =
        gcmTag key nonce (ctrCrypt key nonce 0 (serializeTx r)) := by
      intro he
      exact hiv (List.append_cancel_right (gcmTag_inj key he))
    simp [decryptData, hk, sealBytes, hne]

/-- Witness for C5: round trip at a concrete key, nonce and record, and
failure on a concrete tag change. -/
theorem C5_envelope_roundtrip_and_tamper_witness :
    decryptData encKey0 (sealBytes encKey0 nonce0 tdFund) = Except.ok tdFund ∧
    decryptData encKey0 { sealBytes encKey0 nonce0 tdFund with tag := [] } =
      Except.error "Unsupported state or unable to authenticate data" := by
  refine ⟨(C5_envelope_roundtrip_and_tamper encKey0 nonce0 tdFund (by decide)
            (by decide)).2.1, ?_⟩
  exact (C5_envelope_roundtrip_and_tamper encKey0 nonce0 tdFund (by decide)
          (by decide)).2.2.2.1 [] (by decide)

/-- Claim C10: verifyHmac is total only on candidate digests whose byte
length is exactly 32 (the SHA-256 output length); on any other length,
including the empty digest, the underlying constant-time comparison
throws instead of returning false, and on length 32 it returns the
boolean comparison result. -/
theorem C10_verifyHmac_length_behavior (key : List Nat) (data : TxRecord)
    (cand : List Nat) (hk : key.length = 64) :
    (cand.length ≠ 32 → verifyHmac key data cand =
        Except.error "Input buffers must have the same byte length") ∧
    (cand.length = 32 → verifyHmac key data cand =
        Except.ok (hmacSha256 key (serializeTx data) == cand)) := by
  constructor
  · intro h
    have hne : ¬ (hmacSha256 key (serializeTx data)).length = cand.length := by
      rw [hmacSha256_length]
      exact fun he => h he.symm
    simp [verifyHmac, generateHmac, hk, timingSafeEqual, hne]
  · intro h
    have heq : (hmacSha256 key (serializeTx data)).length = cand.length := by
      rw [hmacSha256_length, h]
    simp [verifyHmac, generateHmac, hk, timingSafeEqual, heq]

/-- Witness for C10: the empty candidate digest throws; a 32-byte
candidate returns a boolean. -/
theorem C10_verifyHmac_length_behavior_witness :
    verifyHmac hmacKey0 tdFund [] =
      Except.error "Input buffers must have the same byte length" ∧
    verifyHmac hmacKey0 tdFund (List.replicate 32 7) =
      Except.ok (hmacSha256 hmacKey0 (serializeTx tdFund) == List.replicate 32 7) := by
  refine ⟨(C10_verifyHmac_length_behavior hmacKey0 tdFund [] (by decide)).1 (by decide),
          (C10_verifyHmac_length_behavior hmacKey0 tdFund (List.replicate 32 7)
            (by decide)).2 (by decide)⟩

/-- Counterexample for claim C6: a signature-valid success webhook whose
provider reference matches no pending transaction is answered with HTTP
404, not 200, by the OPay webhook handler. -/
theorem C6_unknown_reference_counterexample :
    verifyOpayWebhookSignature "production" secret0 pUnknown
      (hmacSha512 secret0 (stringifyOPayload pUnknown)) = true ∧
    (opayWebhook "production" secret0 encKey0 pUnknown
      (hmacSha512 secret0 (stringifyOPayload pUnknown)) sOpayPending).1.1 = 404 ∧
    ¬ ((opayWebhook "production" secret0 encKey0 pUnknown
      (hmacSha512 secret0 (stringifyOPayload pUnknown)) sOpayPending).1.1 = 200) := by
  refine ⟨by decide, rfl, by decide⟩

/-- Claim C6 as amended: for every signature-valid success webhook whose
provider reference matches no pending transaction (unknown, or already
settled and deleted), the OPay handler performs no mutation, emits no
notification and does not crash, but it responds HTTP 404 rather than
200. -/
theorem C6_unknown_reference_amended (env : String) (secret key : List Nat)
    (p : OPayload) (sig : List Nat) (s : Store)
    (hv : verifyOpayWebhookSignature env secret p sig = true)
    (hs : p.status = "SUCCESS")
    (hn : findPendingByOpayRef p.reference s.pendingTransactions = none) :
    opayWebhook env secret key p sig s = ((404, "Transaction not found"), s, []) := by
  simp [opayWebhook, hv, hs, hn]

/-- Witness for the amended C6. -/
theorem C6_unknown_reference_amended_witness :
    opayWebhook "development" secret0 encKey0 pUnknown [] emptyStore =
      ((404, "Transaction not found"), emptyStore, []) :=
  C6_unknown_reference_amended "development" secret0 encKey0 pUnknown [] emptyStore
    (by decide) (by decide) (by decide)

/-- Counterexample for claim C7: with a deployment environment other than
production, a signature that does not match the keyed HMAC-SHA512 digest
of the payload is accepted anyway; the handler answers 200 instead of 400
and the settlement executes, crediting the balance. -/
theorem C7_dev_bypass_counterexample :
    ¬ ([9] = hmacSha512 secret0 (stringifyOPayload pSuccess)) ∧
    (opayWebhook "development" secret0 encKey0 pSuccess [9] sOpayPending).1.1 = 200 ∧
    balanceOf (opayWebhook "development" secret0 encKey0 pSuccess [9]
      sOpayPending).2.1 "u1" = 100 := by
  refine ⟨by decide, rfl, rfl⟩

/-- Claim C7 as amended: in the production environment, every webhook
request whose signature differs from the keyed HMAC-SHA512 digest of the
payload is rejected with HTTP 400 and no settlement or mutation occurs;
outside production the signature check is bypassed. -/
theorem C7_production_signature_required (secret key : List Nat) (p : OPayload)
    (sig : List Nat) (s : Store)
    (h : ¬ (sig = hmacSha512 secret (stringifyOPayload p))) :
    opayWebhook "production" secret key p sig s = ((400, "Invalid signature"), s, []) := by
  have hv : verifyOpayWebhookSignature "production" secret p sig = false := by
    simp [verifyOpayWebhookSignature]
    exact fun he => h he.symm
  simp [opayWebhook, hv]

/-- Witness for the amended C7. -/
theorem C7_production_signature_required_witness :
    opayWebhook "production" secret0 encKey0 pSuccess [9] sOpayPending =
      ((400, "Invalid signature"), sOpayPending, []) :=
  C7_production_signature_required secret0 encKey0 pSuccess [9] sOpayPending (by decide)

/-- Counterexample for claim C8: the OPay wallet-funding initiation
accepts the amount 2000000, far above the 1000000 bound the claim
requires to be rejected: the handler answers 200 and persists a pending
transaction (the store changes). -/
theorem C8_no_upper_bound_counterexample :
    (initiateWalletFunding (some "u1") (JsNum.val 2000000) "t9" encKey0 nonce0 true
      "ref9" "ord9" sFund).1.1 = 200 ∧
    ¬ ((initiateWalletFunding (some "u1") (JsNum.val 2000000) "t9" encKey0 nonce0 true
      "ref9" "ord9" sFund).2 = sFund) := by
  refine ⟨rfl, by decide⟩

/-- Claim C8 as amended: amounts that are NaN or non-positive are
rejected with HTTP 400 and nothing is persisted by the OPay funding
initiation; the 1000000 upper bound is enforced only by the
Stripe-variant wallet funding initiation, which rejects NaN, non-positive
and above-1000000 amounts with a 400 response and an unchanged store. -/
theorem C8_amount_validation_amended (u txId ref ord piId : String)
    (key nonce hmacKey : List Nat) (pOk wsOk sOk : Bool) (a : JsNum) (s : Store) :
    (invalidBasicAmount a = true →
      initiateWalletFunding (some u) a txId key nonce pOk ref ord s =
        ((400, "Invalid amount"), s)) ∧
    (invalidStripeAmount a = true →
      (initiateWalletFundingStripe (some u) wsOk a txId hmacKey key nonce sOk piId s).1.1
          = 400 ∧
      (initiateWalletFundingStripe (some u) wsOk a txId hmacKey key nonce sOk piId s).2.1
          = s) := by
  constructor
  · intro h
    cases a with
    | nan => rfl
    | val x =>
      have hx : x ≤ 0 := by simpa [invalidBasicAmount] using h
      simp [initiateWalletFunding, hx]
  · intro h
    cases a with
    | nan => cases wsOk <;> simp [initiateWalletFundingStripe]
    | val x =>
      have hx : x ≤ 0 ∨ 1000000 < x := by
        simpa [invalidStripeAmount, Int.not_le, or_comm] using h
      cases wsOk <;> simp [initiateWalletFundingStripe, hx]

/-- Witness for the amended C8: amount 0 on the OPay path, amount 1000001
on the Stripe path. -/
theorem C8_amount_validation_amended_witness :
    (initiateWalletFunding (some "u1") (JsNum.val 0) "t9" encKey0 nonce0 true
      "ref9" "ord9" sFund = ((400, "Invalid amount"), sFund)) ∧
    ((initiateWalletFundingStripe (some "u1") true (JsNum.val 1000001) "t9" hmacKey0
        encKey0 nonce0 true "pi9" sFund).1.1 = 400 ∧
     (initiateWalletFundingStripe (some "u1") true (JsNum.val 1000001) "t9" hmacKey0
        encKey0 nonce0 true "pi9" sFund).2.1 = sFund) :=
  ⟨(C8_amount_validation_amended "u1" "t9" "ref9" "ord9" "pi9" encKey0 nonce0 hmacKey0
      true true true (JsNum.val 0) sFund).1 (by decide),
   (C8_amount_validation_amended "u1" "t9" "ref9" "ord9" "pi9" encKey0 nonce0 hmacKey0
      true true true (JsNum.val 1000001) sFund).2 (by decide)⟩
